import Mathlib

/-!
Verification of `scripts/run_housekeeper_self_check.py` (Blab repository).

The script polls a health endpoint with bounded retries, then calls a
self-check endpoint once and maps the response to an exit code. We embed it
shallowly: network outcomes are inputs (an oracle gives the outcome of each
GET), JSON values are an inductive type, and the whole run is a pure function
from the run input to the observable process output (exit behaviour, lines
printed to stdout and stderr, request and sleep counts).

Conventions of the embedding:
- `NetOutcome` is what one `urllib.request.urlopen` call does: return a
  response, raise `urllib.error.HTTPError` carrying a status and body, or
  raise some other transport-level error such as `urllib.error.URLError` or a
  socket timeout. The source only catches `HTTPError`, so the transport case
  is an uncaught exception in `request_json`, modelled as `Except.error`.
- `RawBody` pairs the decoded UTF-8 body text with the result of
  `json.loads` on that text (`none` on `json.JSONDecodeError`). The JSON
  parser is the Python standard library, external to this program, so the
  pair is taken as given input rather than re-implemented.
- `Json.obj` field lists model Python dicts produced by `json.loads`; keys
  are unique by construction there, and `List.lookup` returns the binding of
  the first (hence only) matching key.
- JSON numbers are modelled as integers; no claim depends on non-integer
  numerics.
- Printing is modelled as the list of lines passed to `print`; timeouts and
  delays only shape blocking time, which the outcome oracle abstracts, so
  they are not carried in the state (sleep events are counted).
-/

namespace Blab

/-- JSON values as decoded by `json.loads`. -/
inductive Json where
  | null : Json
  | bool (b : Bool) : Json
  | num (n : Int) : Json
  | str (s : String) : Json
  | arr (elems : List Json) : Json
  | obj (fields : List (String × Json)) : Json

/-- Python truthiness of a decoded JSON value (`bool(v)`). -/
def truthy : Json → Bool
  | Json.null => false
  | Json.bool b => b
  | Json.num n => !(n == 0)
  | Json.str s => !(s == "")
  | Json.arr xs => !xs.isEmpty
  | Json.obj fs => !fs.isEmpty

/-- Python `d.get(key) is True` for a decoded dict: the value under `key`
exists and is literally the boolean `True`. -/
def isTrue : Option Json → Bool
  | some (Json.bool true) => true
  | _ => false

/-- Python `x or d` for `x` a lookup result (`None` when the key is absent)
and `d` a default: the value when present and truthy, otherwise the
default. -/
def pyOr (v : Option Json) (dflt : Json) : Json :=
  match v with
  | some x => if truthy x then x else dflt
  | none => dflt

/-- Python `repr` of a decoded JSON value (used by `str` on containers).
Escaping inside shown strings is not modelled; no claim exercises it. -/
def pyRepr : Json → String
  | Json.null => "None"
  | Json.bool true => "True"
  | Json.bool false => "False"
  | Json.num n => toString n
  | Json.str s => "\x27" ++ s ++ "\x27"
  | Json.arr xs =>
      "[" ++ String.intercalate ", " (xs.attach.map (fun c => pyRepr c.1)) ++ "]"
  | Json.obj fs =>
      "\x7b" ++ String.intercalate ", "
        (fs.attach.map (fun c => "\x27" ++ c.1.1 ++ "\x27: " ++ pyRepr c.1.2))
      ++ "\x7d"
termination_by j => sizeOf j
decreasing_by
  · rcases c with ⟨v, hm⟩
    have h := List.sizeOf_lt_of_mem hm
    simp at h ⊢
    omega
  · rcases c with ⟨⟨k, v⟩, hm⟩
    have h := List.sizeOf_lt_of_mem hm
    simp at h ⊢
    omega

/-- Python `str` of a decoded JSON value. -/
def pyStr : Json → String
  | Json.null => "None"
  | Json.bool true => "True"
  | Json.bool false => "False"
  | Json.num n => toString n
  | Json.str s => s
  | Json.arr xs => pyRepr (Json.arr xs)
  | Json.obj fs => pyRepr (Json.obj fs)

/-- A run of `n` spaces (JSON indentation). -/
def spacesOf (n : Nat) : String := String.mk (List.replicate n ' ')

/-- String escaping applied by `json.dumps` with `ensure_ascii=False` to the
characters a body in this development can contain. -/
def jsonEscape (s : String) : String :=
  s.toList.foldl (fun acc c =>
    acc ++ (if c == '"' then "\\\""
      else if c == '\\' then "\\\\"
      else if c == '\n' then "\\n"
      else if c == '\r' then "\\r"
      else if c == '\t' then "\\t"
      else String.mk [c])) ""

/-- Python `json.dumps(v, ensure_ascii=False, indent=2)` rendered at a given
indentation level; the call in `main` uses level 0. -/
def pyDumps (level : Nat) : Json → String
  | Json.null => "null"
  | Json.bool true => "true"
  | Json.bool false => "false"
  | Json.num n => toString n
  | Json.str s => "\"" ++ jsonEscape s ++ "\""
  | Json.arr [] => "[]"
  | Json.arr (x :: xs) =>
      "[\n" ++ String.intercalate ",\n"
        ((x :: xs).attach.map (fun c => spacesOf (level + 2) ++ pyDumps (level + 2) c.1))
      ++ "\n" ++ spacesOf level ++ "]"
  | Json.obj [] => "\x7b\x7d"
  | Json.obj (f :: fs) =>
      "\x7b\n" ++ String.intercalate ",\n"
        ((f :: fs).attach.map (fun c =>
          spacesOf (level + 2) ++ "\"" ++ jsonEscape c.1.1 ++ "\": " ++ pyDumps (level + 2) c.1.2))
      ++ "\n" ++ spacesOf level ++ "\x7d"
termination_by j => sizeOf j
decreasing_by
  · rcases c with ⟨v, hm⟩
    have h := List.sizeOf_lt_of_mem hm
    simp at h ⊢
    omega
  · rcases c with ⟨⟨k, v⟩, hm⟩
    have h := List.sizeOf_lt_of_mem hm
    simp at h ⊢
    omega

/-- Decoded body of one HTTP response: the UTF-8 text handed back by
`request_json` together with what `json.loads` yields on it (`none` when it
raises `json.JSONDecodeError`). -/
structure RawBody where
  text : String
  parsed : Option Json

/-- Outcome of one `urllib.request.urlopen` call, supplied as input to the
run: a normal response, an `urllib.error.HTTPError` (which carries an error
status and a readable body), or any other transport-level failure such as
`urllib.error.URLError` (connection refused, DNS failure) or a socket
timeout. -/
inductive NetOutcome where
  | response (status : Nat) (body : RawBody)
  | httpError (code : Nat) (body : RawBody)
  | transport

/-- Embeds `request_json` (source lines 24 to 35): a normal response yields
its status and body; an `HTTPError` is caught and yields its code and body;
any other exception is not caught and propagates, modelled as
`Except.error`. -/
def request_json (o : NetOutcome) : Except Unit (Nat × RawBody) :=
  match o with
  | NetOutcome.response s b => Except.ok (s, b)
  | NetOutcome.httpError c b => Except.ok (c, b)
  | NetOutcome.transport => Except.error ()

/-- Embeds `parse_json_or_none` (source lines 38 to 43): `json.loads` result
when it is a dict, else `None`. -/
def parse_json_or_none (raw : RawBody) : Option (List (String × Json)) :=
  match raw.parsed with
  | some (Json.obj fields) => some fields
  | _ => none

/-- The per-attempt readiness test of `ensure_health` (source line 51):
`status == 200 and body and body.get("ok") is True`, where `body` is the
result of `parse_json_or_none` (a falsy `body` is `None` or the empty
dict). -/
def healthAttemptReady (status : Nat) (raw : RawBody) : Bool :=
  match parse_json_or_none raw with
  | some body => status == 200 && !body.isEmpty && isTrue (List.lookup "ok" body)
  | none => false

/-- How the `ensure_health` loop ends: an attempt succeeded (`ready`), all
attempts were used up (`timedOut`, leading to the diagnostic and exit 10), or
an uncaught exception escaped an attempt (`aborted`). -/
inductive HealthResult where
  | ready : HealthResult
  | timedOut : HealthResult
  | aborted : HealthResult
  deriving DecidableEq, Repr

/-- Observable trace of the `ensure_health` loop: how many health GETs were
issued, how many sleeps were performed, and how the loop ended. -/
structure HealthTrace where
  requests : Nat
  sleeps : Nat
  result : HealthResult
  deriving DecidableEq, Repr

/-- Embeds the `for attempt in range(1, retries + 1)` loop body of
`ensure_health` (source lines 48 to 54), run over the listed attempt numbers:
issue the GET (an uncaught exception aborts the run), return on a ready
response, otherwise sleep when `attempt < retries` and continue. -/
def healthAttempts (oracle : Nat → NetOutcome) (retries : Int) : List Nat → HealthTrace
  | [] => ⟨0, 0, HealthResult.timedOut⟩
  | attempt :: rest =>
    match request_json (oracle attempt) with
    | Except.error _ => ⟨1, 0, HealthResult.aborted⟩
    | Except.ok (status, raw) =>
      if healthAttemptReady status raw then ⟨1, 0, HealthResult.ready⟩
      else
        let t := healthAttempts oracle retries rest
        ⟨t.requests + 1, t.sleeps + (if (attempt : Int) < retries then 1 else 0), t.result⟩

/-- Embeds `ensure_health` (source lines 46 to 57). The attempt numbers are
`range(1, retries + 1)`; with a non-positive `retries` (the flag is a plain
Python `int`) that range is empty. The diagnostic print and `sys.exit(10)` on
the `timedOut` result are rendered by `main`. -/
def ensure_health (oracle : Nat → NetOutcome) (retries : Int) : HealthTrace :=
  healthAttempts oracle retries (List.range' 1 retries.toNat)

/-- Python `s.rstrip("/")`: drop every trailing slash (source line 62). -/
def rstripSlash (s : String) : String :=
  String.mk ((s.toList.reverse.dropWhile (fun c => c == '/')).reverse)

/-- Command-line arguments of interest (source lines 14 to 21). The timeout
and delay flags only shape blocking time, which the outcome oracle abstracts,
so they are not modelled. -/
structure Args where
  endpoint : String
  token : String
  healthRetries : Int

/-- Input of one run: the parsed arguments, the environment variable
`BLAB_HOUSEKEEPER_TOKEN` (empty string when absent), and the outcome of every
GET the run may issue: `health n` is the outcome of the n-th health request,
`selfCheck` the outcome of the single self-check request. -/
structure RunInput where
  args : Args
  envToken : String
  health : Nat → NetOutcome
  selfCheck : NetOutcome

/-- Embeds `token = args.token or os.environ.get("BLAB_HOUSEKEEPER_TOKEN",
"")` (source line 63). -/
def effectiveToken (i : RunInput) : String :=
  if i.args.token == "" then i.envToken else i.args.token

/-- Embeds the conditional header construction (source lines 65 to 67): the
`Authorization: Bearer` header is present exactly when a token is
configured. -/
def headersOf (i : RunInput) : List (String × String) :=
  if effectiveToken i == "" then []
  else [("Authorization", "Bearer " ++ effectiveToken i)]

/-- How the process ends: `sys.exit(code)`, or an exception propagating out
of `main` uncaught (the interpreter then aborts with a traceback; no line of
the program itself is printed). -/
inductive RunResult where
  | exited (code : Nat) : RunResult
  | uncaught : RunResult
  deriving DecidableEq, Repr

/-- Observable output of one run: how the process ended, the lines printed to
stdout and to stderr by the program, and the request and sleep counts. -/
structure ProcOutput where
  result : RunResult
  stdout : List String
  stderrLines : List String
  healthRequests : Nat
  selfCheckRequests : Nat
  sleeps : Nat
  deriving DecidableEq, Repr

/-- Embeds the failing-check filter (source line 89): entries of `checks`
that are dicts whose `passed` value is not literally `True`; kept as their
field lists. -/
def failedChecks (checks : List Json) : List (List (String × Json)) :=
  checks.filterMap (fun c =>
    match c with
    | Json.obj f => if isTrue (List.lookup "passed" f) then none else some f
    | _ => none)

/-- Embeds the diagnostic line printed per failing check (source lines 90 to
93): name defaulting to "unknown" and detail defaulting to the empty string
through Python `or`, each passed through `str`. -/
def failLine (item : List (String × Json)) : String :=
  "[FAILED] " ++ pyStr (pyOr (List.lookup "name" item) (Json.str "unknown"))
    ++ ": " ++ pyStr (pyOr (List.lookup "detail" item) (Json.str ""))

/-- Embeds the `checks` handling of `main` (source lines 87 to 93): when the
`checks` value is a list, one line per failing entry, in order; otherwise
nothing is printed. -/
def checkFailureLines (body : List (String × Json)) : List String :=
  match List.lookup "checks" body with
  | some (Json.arr checks) => (failedChecks checks).map failLine
  | _ => []

/-- Embeds `main` (source lines 60 to 96) as a pure function from the run
input to the observable output. Control flow follows the source line by
line: readiness loop (via `ensure_health`, whose failure prints the fixed
diagnostic and exits 10), single self-check GET (an uncaught exception aborts
the run), the not-valid-JSON branch (raw body to stdout, diagnostic, exit
20), the unconditional indented report, the status gate (exit 20), the `ok`
gate (exit 0), and the failing-check enumeration (exit 1). -/
def main (i : RunInput) : ProcOutput :=
  let h := ensure_health i.health i.args.healthRetries
  match h.result with
  | HealthResult.aborted =>
      ⟨RunResult.uncaught, [], [], h.requests, 0, h.sleeps⟩
  | HealthResult.timedOut =>
      ⟨RunResult.exited 10, [], ["health check failed: runtime not ready"],
        h.requests, 0, h.sleeps⟩
  | HealthResult.ready =>
    match request_json i.selfCheck with
    | Except.error _ =>
        ⟨RunResult.uncaught, [], [], h.requests, 1, h.sleeps⟩
    | Except.ok (status, raw) =>
      match parse_json_or_none raw with
      | none =>
          ⟨RunResult.exited 20, [raw.text],
            ["self-check response is not valid JSON"], h.requests, 1, h.sleeps⟩
      | some body =>
        let report := pyDumps 0 (Json.obj body)
        if 400 ≤ status then
          ⟨RunResult.exited 20, [report],
            ["self-check endpoint returned HTTP " ++ toString status],
            h.requests, 1, h.sleeps⟩
        else if isTrue (List.lookup "ok" body) then
          ⟨RunResult.exited 0, [report], [], h.requests, 1, h.sleeps⟩
        else
          ⟨RunResult.exited 1, [report], checkFailureLines body,
            h.requests, 1, h.sleeps⟩

/-- Analysis helper: the health attempt with this outcome satisfies the
readiness test of `ensure_health` (it yields an HTTP response with status
200 and a JSON object whose `ok` is literally true). -/
def attemptReady (o : NetOutcome) : Bool :=
  match request_json o with
  | Except.ok (status, raw) => healthAttemptReady status raw
  | Except.error _ => false

/-- Analysis helper: the health attempt with this outcome yields an HTTP
response at all (possibly an error status), as opposed to raising a
transport-level exception. -/
def attemptResponded (o : NetOutcome) : Bool :=
  match request_json o with
  | Except.ok _ => true
  | Except.error _ => false

/-- Stated from the wording of claim C3, for comparison with the embedding:
the name printed for a failing check is "unknown" when the `name` field is
missing or its value is empty (falsy), and otherwise the value itself
through Python `str`. -/
def claimedName : Option Json → String
  | none => "unknown"
  | some v => if truthy v then pyStr v else "unknown"

/-- Stated from the wording of claim C3, for comparison with the embedding:
the detail printed for a failing check is the empty string when the
`detail` field is missing or its value is empty (falsy), and otherwise the
value itself through Python `str`. -/
def claimedDetail : Option Json → String
  | none => ""
  | some v => if truthy v then pyStr v else ""

/-- Stated from the wording of claim C3, for comparison with the embedding:
when the `checks` value is a list, exactly one line per element that is an
object whose `passed` field is not literally true, in order, of the form
`[FAILED] name: detail`, and no line for any other element; no line at all
when `checks` is missing or not a list. -/
def claimedFailureLines (checksField : Option Json) : List String :=
  match checksField with
  | some (Json.arr cs) =>
      cs.filterMap (fun c =>
        match c with
        | Json.obj f =>
          if isTrue (List.lookup "passed" f) then none
          else some ("[FAILED] " ++ claimedName (List.lookup "name" f) ++ ": "
            ++ claimedDetail (List.lookup "detail" f))
        | _ => none)
  | _ => []

/-- Fixture: a 200 response whose body is the JSON object with `ok` true. -/
def readyBody : RawBody :=
  ⟨"\x7b\"ok\": true\x7d", some (Json.obj [("ok", Json.bool true)])⟩

/-- Fixture: a health or self-check GET that comes back 200 ready. -/
def readyOutcome : NetOutcome := NetOutcome.response 200 readyBody

/-- Fixture: a 200 response whose body text is not JSON at all. -/
def notJsonBody : RawBody := ⟨"not json", none⟩

/-- Fixture: the default command line with a chosen retry count. -/
def defaultArgs (r : Int) : Args := ⟨"http://127.0.0.1:48765", "", r⟩

/-- Fixture for C1: one health retry, and the health GET suffers a transport
failure (connection refused); the self-check endpoint would answer ready if
it were ever reached. -/
def c1Input : RunInput :=
  ⟨defaultArgs 1, "", fun _ => NetOutcome.transport, readyOutcome⟩

/-- Fixture for C2: readiness succeeds at once, then the self-check GET
suffers a transport failure or timeout. -/
def c2Input : RunInput :=
  ⟨defaultArgs 1, "", fun _ => readyOutcome, NetOutcome.transport⟩

/-- Fixture: the self-check body of the spec example, with one failing and
one passing check. -/
def checksBody : RawBody :=
  ⟨"\x7b\"ok\": false, \"checks\": [\x7b\"name\": \"disk\", \"passed\": false, \"detail\": \"low space\"\x7d, \x7b\"name\": \"mem\", \"passed\": true\x7d]\x7d",
    some (Json.obj
      [("ok", Json.bool false),
       ("checks", Json.arr
         [Json.obj [("name", Json.str "disk"), ("passed", Json.bool false),
           ("detail", Json.str "low space")],
          Json.obj [("name", Json.str "mem"), ("passed", Json.bool true)]])])⟩

/-- Fixture: the parsed fields of `checksBody`. -/
def checksFields : List (String × Json) :=
  [("ok", Json.bool false),
   ("checks", Json.arr
     [Json.obj [("name", Json.str "disk"), ("passed", Json.bool false),
       ("detail", Json.str "low space")],
      Json.obj [("name", Json.str "mem"), ("passed", Json.bool true)]])]

/-- Fixture for C3: readiness succeeds at once; the self-check GET returns
the spec example body with status 200. -/
def c3Input : RunInput :=
  ⟨defaultArgs 1, "", fun _ => readyOutcome, NetOutcome.response 200 checksBody⟩

/-- Fixture for C4: readiness succeeds at once; the self-check GET comes
back as HTTP 503 whose body still claims `ok` true. -/
def c4Input : RunInput :=
  ⟨defaultArgs 1, "", fun _ => readyOutcome, NetOutcome.httpError 503 readyBody⟩

/-- Fixture for C5: readiness succeeds at once; the self-check body does not
decode as JSON. -/
def c5Input : RunInput :=
  ⟨defaultArgs 1, "", fun _ => readyOutcome, NetOutcome.response 200 notJsonBody⟩

/-- Fixture for C6: three health retries; the first health GET suffers a
transport failure and every later health GET would answer ready. -/
def c6Input : RunInput :=
  ⟨defaultArgs 3, "",
    fun n => if n == 1 then NetOutcome.transport else readyOutcome,
    readyOutcome⟩

/-- Fixture for C7: two health retries; the first health GET returns a 503
response (an HTTP response that is not ready) and the second returns ready. -/
def c7Input : RunInput :=
  ⟨defaultArgs 2, "",
    fun n => if n == 1 then NetOutcome.httpError 503 notJsonBody else readyOutcome,
    readyOutcome⟩

/-- Fixture for C8: readiness succeeds at once; the self-check GET returns
the spec example body with status 200. -/
def c8Input : RunInput :=
  ⟨defaultArgs 1, "", fun _ => readyOutcome, NetOutcome.response 200 checksBody⟩

/-- Fixture for C9: a healthy run. -/
def c9InputA : RunInput :=
  ⟨defaultArgs 3, "", fun _ => readyOutcome, readyOutcome⟩

/-- Fixture for C9: the same configuration and responses as `c9InputA`, with
the health oracle written differently but pointwise equal. -/
def c9InputB : RunInput :=
  ⟨defaultArgs 3, "",
    fun n => if n == n then readyOutcome else NetOutcome.transport,
    readyOutcome⟩

/-- Fixture for C10: retry count 0, every endpoint healthy. -/
def c10Input : RunInput :=
  ⟨defaultArgs 0, "", fun _ => readyOutcome, readyOutcome⟩

/-! ## Supporting lemmas -/

/-- An attempt outcome that responds yields a response through
`request_json`. -/
theorem responded_ok {o : NetOutcome} (h : attemptResponded o = true) :
    ∃ s b, request_json o = Except.ok (s, b) := by
  cases o with
  | response s b => exact ⟨s, b, rfl⟩
  | httpError c b => exact ⟨c, b, rfl⟩
  | transport => simp [attemptResponded, request_json] at h

/-- A ready attempt outcome yields a response through `request_json` that
satisfies the readiness test. -/
theorem ready_ok {o : NetOutcome} (h : attemptReady o = true) :
    ∃ s b, request_json o = Except.ok (s, b) ∧ healthAttemptReady s b = true := by
  cases o with
  | response s b =>
    exact ⟨s, b, rfl, by simpa [attemptReady, request_json] using h⟩
  | httpError c b =>
    exact ⟨c, b, rfl, by simpa [attemptReady, request_json] using h⟩
  | transport => simp [attemptReady, request_json] at h

/-- The printed name of a failing check, as computed by the source, equals
the claim-side description. -/
theorem pyStr_pyOr_name (v : Option Json) :
    pyStr (pyOr v (Json.str "unknown")) = claimedName v := by
  cases v with
  | none => rfl
  | some x =>
    by_cases h : truthy x = true
    · simp [pyOr, claimedName, h]
    · simp [pyOr, claimedName, h, pyStr]

/-- The printed detail of a failing check, as computed by the source, equals
the claim-side description. -/
theorem pyStr_pyOr_detail (v : Option Json) :
    pyStr (pyOr v (Json.str "")) = claimedDetail v := by
  cases v with
  | none => rfl
  | some x =>
    by_cases h : truthy x = true
    · simp [pyOr, claimedDetail, h]
    · simp [pyOr, claimedDetail, h, pyStr]

/-- The failing-check lines printed by the source (filter of the dict
entries whose `passed` is not literally true, then one formatted line each)
coincide with the claim-side description for every body. -/
theorem checkFailureLines_eq_claimed (body : List (String × Json)) :
    checkFailureLines body = claimedFailureLines (List.lookup "checks" body) := by
  unfold checkFailureLines claimedFailureLines
  cases List.lookup "checks" body with
  | none => rfl
  | some v =>
    cases v with
    | arr cs =>
      simp only [failedChecks, List.map_filterMap]
      apply List.filterMap_congr
      intro c _
      cases c with
      | obj f =>
        by_cases hp : isTrue (List.lookup "passed" f) = true
        · simp [hp]
        · simp [hp, failLine, pyStr_pyOr_name, pyStr_pyOr_detail]
      | null => rfl
      | bool b => rfl
      | num n => rfl
      | str s => rfl
      | arr xs => rfl
    | null => rfl
    | bool b => rfl
    | num n => rfl
    | str s => rfl
    | obj fs => rfl

/-- If the attempts before position `k` all respond without being ready,
attempt `k` is ready, and every earlier attempt number is below the retry
bound, then the loop stops at attempt `k` with `k - start` sleeps. -/
theorem healthAttempts_firstReady (oracle : Nat → NetOutcome) (retries : Int) :
    ∀ (len start k : Nat), start ≤ k → k < start + len →
      (∀ j, start ≤ j → j < k →
        attemptResponded (oracle j) = true ∧ attemptReady (oracle j) = false) →
      attemptReady (oracle k) = true →
      (∀ j, start ≤ j → j < k → (j : Int) < retries) →
      healthAttempts oracle retries (List.range' start len) =
        ⟨k - start + 1, k - start, HealthResult.ready⟩ := by
  intro len
  induction len with
  | zero =>
    intro start k h1 h2 _ _ _
    omega
  | succ n ih =>
    intro start k hsk hklt hfail hk hsleep
    rw [List.range'_succ]
    rcases Nat.eq_or_lt_of_le hsk with heq | hlt
    · subst heq
      obtain ⟨s, b, hob, hr⟩ := ready_ok hk
      simp [healthAttempts, hob, hr]
    · obtain ⟨hres, hnr⟩ := hfail start le_rfl hlt
      obtain ⟨s, b, hob⟩ := responded_ok hres
      have hr : healthAttemptReady s b = false := by
        have h2 := hnr
        unfold attemptReady at h2
        rw [hob] at h2
        simpa using h2
      have ht := ih (start + 1) k hlt (by omega)
        (fun j hj1 hj2 => hfail j (by omega) hj2) hk
        (fun j hj1 hj2 => hsleep j (by omega) hj2)
      have hslp : (start : Int) < retries := hsleep start le_rfl hlt
      simp [healthAttempts, hob, hr, ht, hslp, HealthTrace.mk.injEq]
      omega

/-! ## Claims -/

/-- C1: the claim says that with R = 1 and the single health attempt not
satisfying the readiness condition, the program prints the fixed diagnostic
and exits 10 without requesting self-check. On a transport failure (an
attempt outcome that does not satisfy readiness) the source only catches
`urllib.error.HTTPError`, so the exception escapes: the run ends with an
uncaught exception instead of printing the diagnostic and exiting 10. The
self-check endpoint is indeed never requested. -/
theorem c1_transport_failure_aborts_instead_of_exit10 :
    (main c1Input).result = RunResult.uncaught ∧
    (main c1Input).result ≠ RunResult.exited 10 ∧
    (main c1Input).stderrLines = [] ∧
    (main c1Input).selfCheckRequests = 0 := by
  decide

/-- C2: the claim says a transport failure or timeout on the self-check GET
is reported as EndpointError on stderr with exit code 20. The source only
catches `urllib.error.HTTPError` in `request_json`, so the transport
exception escapes `main`: the run ends with an uncaught exception, printing
no diagnostic of its own and never reaching `sys.exit(20)`. -/
theorem c2_selfcheck_transport_aborts_instead_of_exit20 :
    (main c2Input).result = RunResult.uncaught ∧
    (main c2Input).result ≠ RunResult.exited 20 ∧
    (main c2Input).stderrLines = [] ∧
    (main c2Input).selfCheckRequests = 1 := by
  decide

/-- C3: for a self-check response whose body parses as a JSON object and
whose status is below 400: if the `ok` field of the body is literally
boolean true the run exits 0; otherwise it exits 1 and prints to stderr
exactly the failure lines claim C3 describes (one `[FAILED] name: detail`
line per element of a `checks` list that is an object whose `passed` is not
literally true, name defaulting to "unknown" when missing or empty, detail
defaulting to the empty string when missing, and no line for any other
element or when `checks` is not a list). -/
theorem c3_verdict_and_failure_lines (i : RunInput) (status : Nat)
    (raw : RawBody) (body : List (String × Json))
    (hready : (ensure_health i.health i.args.healthRetries).result = HealthResult.ready)
    (hsc : request_json i.selfCheck = Except.ok (status, raw))
    (hparse : parse_json_or_none raw = some body)
    (hstatus : status < 400) :
    (isTrue (List.lookup "ok" body) = true → (main i).result = RunResult.exited 0) ∧
    (isTrue (List.lookup "ok" body) = false →
      (main i).result = RunResult.exited 1 ∧
      (main i).stderrLines = claimedFailureLines (List.lookup "checks" body)) := by
  have hst : ¬ (400 ≤ status) := by omega
  constructor
  · intro hok
    simp [main, hready, hsc, hparse, hst, hok]
  · intro hok
    simp [main, hready, hsc, hparse, hst, hok, checkFailureLines_eq_claimed]

/-- C3 witness: on the spec example body (one failing check named disk with
detail low space, one passing check), the run exits 1 and prints exactly the
one expected failure line. -/
theorem c3_verdict_and_failure_lines_witness :
    (200 : Nat) < 400 ∧ isTrue (List.lookup "ok" checksFields) = false ∧
    ((main c3Input).result = RunResult.exited 1 ∧
     (main c3Input).stderrLines = ["[FAILED] disk: low space"]) :=
  ⟨by decide, by decide, by
    have h := (c3_verdict_and_failure_lines c3Input 200 checksBody checksFields
      (by decide) rfl rfl (by decide)).2 (by decide)
    exact ⟨h.1, h.2.trans (by decide)⟩⟩

/-- C4: when readiness has succeeded and the self-check GET yields a
response whose body parses as a JSON object but whose status is at least
400, the run prints the diagnostic naming the status code to stderr and
exits 20, whatever the value of `ok` in the body: the status gate runs
before the `ok` gate. -/
theorem c4_status_gate_before_ok_gate (i : RunInput) (status : Nat)
    (raw : RawBody) (body : List (String × Json))
    (hready : (ensure_health i.health i.args.healthRetries).result = HealthResult.ready)
    (hsc : request_json i.selfCheck = Except.ok (status, raw))
    (hparse : parse_json_or_none raw = some body)
    (hstatus : 400 ≤ status) :
    (main i).result = RunResult.exited 20 ∧
    (main i).stderrLines = ["self-check endpoint returned HTTP " ++ toString status] := by
  simp [main, hready, hsc, hparse, hstatus]

/-- C4 witness: the theorem applied to a 503 self-check response whose body
says `ok` true; the run still exits 20. -/
theorem c4_status_gate_before_ok_gate_witness :
    400 ≤ 503 ∧
    ((main c4Input).result = RunResult.exited 20 ∧
     (main c4Input).stderrLines = ["self-check endpoint returned HTTP " ++ toString 503]) :=
  ⟨by decide,
    c4_status_gate_before_ok_gate c4Input 503 readyBody [("ok", Json.bool true)]
      (by decide) rfl rfl (by decide)⟩

/-- C5: when readiness has succeeded and the self-check GET yields a
response whose body does not decode as JSON or decodes to a non-object
value, the run prints the raw body text verbatim to stdout, prints the
diagnostic to stderr, and exits 20. -/
theorem c5_invalid_body_prints_raw_and_exits20 (i : RunInput) (status : Nat)
    (raw : RawBody)
    (hready : (ensure_health i.health i.args.healthRetries).result = HealthResult.ready)
    (hsc : request_json i.selfCheck = Except.ok (status, raw))
    (hparse : parse_json_or_none raw = none) :
    (main i).stdout = [raw.text] ∧
    (main i).stderrLines = ["self-check response is not valid JSON"] ∧
    (main i).result = RunResult.exited 20 := by
  simp [main, hready, hsc, hparse]

/-- C5 witness: the theorem applied to the literal `not json` body from the
spec example. -/
theorem c5_invalid_body_prints_raw_and_exits20_witness :
    parse_json_or_none notJsonBody = none ∧
    ((main c5Input).stdout = ["not json"] ∧
     (main c5Input).stderrLines = ["self-check response is not valid JSON"] ∧
     (main c5Input).result = RunResult.exited 20) :=
  ⟨rfl,
    c5_invalid_body_prints_raw_and_exits20 c5Input 200 notJsonBody (by decide) rfl rfl⟩

/-- C6: the claim says a health attempt ending in a transport error counts
as a failed attempt, with a sleep and a retry while attempts remain. In the
source the transport exception is not caught, so the run aborts after the
first attempt: exactly one health request, no sleep, no retry (the second
attempt, which would have succeeded, is never issued), and no self-check. -/
theorem c6_health_transport_aborts_instead_of_retry :
    (main c6Input).result = RunResult.uncaught ∧
    (main c6Input).healthRequests = 1 ∧
    (main c6Input).sleeps = 0 ∧
    (main c6Input).selfCheckRequests = 0 := by
  decide

/-- C7: when the k-th health attempt is the first to satisfy the readiness
condition (each earlier attempt yields an HTTP response that is not ready;
by C6 a transport outcome would abort the run before attempt k could ever be
issued, so responding earlier attempts is what the claim presupposes) and
k is within the retry bound, exactly k health requests are issued, exactly
k - 1 sleeps happen (none after the successful attempt), and the self-check
endpoint is requested exactly once. -/
theorem c7_first_success_issues_k_requests (i : RunInput) (k : Nat)
    (hk1 : 1 ≤ k) (hkR : (k : Int) ≤ i.args.healthRetries)
    (hfail : ∀ j, 1 ≤ j → j < k →
      attemptResponded (i.health j) = true ∧ attemptReady (i.health j) = false)
    (hready : attemptReady (i.health k) = true) :
    (main i).healthRequests = k ∧ (main i).sleeps = k - 1 ∧
    (main i).selfCheckRequests = 1 := by
  have hkR' : k ≤ i.args.healthRetries.toNat := by omega
  have hE : ensure_health i.health i.args.healthRetries =
      ⟨k - 1 + 1, k - 1, HealthResult.ready⟩ := by
    unfold ensure_health
    exact healthAttempts_firstReady i.health i.args.healthRetries
      i.args.healthRetries.toNat 1 k hk1 (by omega) hfail hready
      (fun j hj1 hj2 => by omega)
  have hk' : k - 1 + 1 = k := by omega
  rw [hk'] at hE
  cases hsc : request_json i.selfCheck with
  | error e => simp [main, hE, hsc]
  | ok p =>
    obtain ⟨status, raw⟩ := p
    cases hp : parse_json_or_none raw with
    | none => simp [main, hE, hsc, hp]
    | some body =>
      by_cases hst : 400 ≤ status
      · simp [main, hE, hsc, hp, hst]
      · cases hok : isTrue (List.lookup "ok" body) <;>
          simp [main, hE, hsc, hp, hst, hok]

/-- C7 witness: two retries, first attempt a non-ready 503 response, second
attempt ready: two health requests, one sleep, one self-check request. -/
theorem c7_first_success_issues_k_requests_witness :
    1 ≤ 2 ∧ (2 : Int) ≤ c7Input.args.healthRetries ∧
    ((main c7Input).healthRequests = 2 ∧ (main c7Input).sleeps = 2 - 1 ∧
     (main c7Input).selfCheckRequests = 1) :=
  ⟨by decide, by decide,
    c7_first_success_issues_k_requests c7Input 2 (by decide) (by decide)
      (fun j hj1 hj2 => by
        have hj : j = 1 := by omega
        subst hj
        exact ⟨by decide, by decide⟩)
      (by decide)⟩

/-- C8: whenever the self-check body parses as a JSON object, the parsed
object re-serialized as indented JSON is the one and only line the run
prints to stdout, and this holds alike on the three possible verdict paths
(status gate exit 20, `ok` true exit 0, otherwise exit 1). -/
theorem c8_report_printed_on_all_paths (i : RunInput) (status : Nat)
    (raw : RawBody) (body : List (String × Json))
    (hready : (ensure_health i.health i.args.healthRetries).result = HealthResult.ready)
    (hsc : request_json i.selfCheck = Except.ok (status, raw))
    (hparse : parse_json_or_none raw = some body) :
    (main i).stdout = [pyDumps 0 (Json.obj body)] ∧
    ((main i).result = RunResult.exited 20 ∨ (main i).result = RunResult.exited 0 ∨
      (main i).result = RunResult.exited 1) := by
  by_cases hst : 400 ≤ status
  · simp [main, hready, hsc, hparse, hst]
  · cases hok : isTrue (List.lookup "ok" body) <;>
      simp [main, hready, hsc, hparse, hst, hok]

/-- C8 witness: the theorem applied to the spec example run; the indented
report is the single stdout line on the exit-1 path. -/
theorem c8_report_printed_on_all_paths_witness :
    parse_json_or_none checksBody = some checksFields ∧
    ((main c8Input).stdout = [pyDumps 0 (Json.obj checksFields)] ∧
     ((main c8Input).result = RunResult.exited 20 ∨
      (main c8Input).result = RunResult.exited 0 ∨
      (main c8Input).result = RunResult.exited 1)) :=
  ⟨rfl,
    c8_report_printed_on_all_paths c8Input 200 checksBody checksFields
      (by decide) rfl rfl⟩

/-- C9: the run is a deterministic, stateless function of the configuration
and the endpoint responses: two run inputs that agree on the arguments, the
environment token, every health outcome, and the self-check outcome produce
identical observable output (verdict, exit behaviour, printed lines, request
counts). The source keeps no state outside these inputs. -/
theorem c9_run_is_deterministic (i1 i2 : RunInput)
    (ha : i1.args = i2.args) (he : i1.envToken = i2.envToken)
    (hh : ∀ n, i1.health n = i2.health n)
    (hs : i1.selfCheck = i2.selfCheck) :
    main i1 = main i2 := by
  obtain ⟨a1, e1, o1, s1⟩ := i1
  obtain ⟨a2, e2, o2, s2⟩ := i2
  have ho : o1 = o2 := funext hh
  simp only at ha he hs ho
  subst ha
  subst he
  subst ho
  subst hs
  rfl

/-- C9 witness: the theorem applied to two concrete extensionally equal
runs. -/
theorem c9_run_is_deterministic_witness : main c9InputA = main c9InputB :=
  c9_run_is_deterministic c9InputA c9InputB rfl rfl
    (fun n => by simp [c9InputA, c9InputB]) rfl

/-- C10: when the retry count is zero or negative, `range(1, retries + 1)`
is empty, so the attempt loop body never runs: no health request is issued,
and the process prints the readiness-failure diagnostic and exits 10 without
requesting self-check. -/
theorem c10_nonpositive_retries_exit10 (i : RunInput)
    (h : i.args.healthRetries ≤ 0) :
    (main i).healthRequests = 0 ∧
    (main i).result = RunResult.exited 10 ∧
    (main i).stderrLines = ["health check failed: runtime not ready"] ∧
    (main i).selfCheckRequests = 0 := by
  have h0 : i.args.healthRetries.toNat = 0 := Int.toNat_of_nonpos h
  simp [main, ensure_health, h0, healthAttempts, List.range']

/-- C10 witness: the theorem applied to the concrete zero-retry run. -/
theorem c10_nonpositive_retries_exit10_witness :
    c10Input.args.healthRetries ≤ 0 ∧
    ((main c10Input).healthRequests = 0 ∧
     (main c10Input).result = RunResult.exited 10 ∧
     (main c10Input).stderrLines = ["health check failed: runtime not ready"] ∧
     (main c10Input).selfCheckRequests = 0) :=
  ⟨by decide, c10_nonpositive_retries_exit10 c10Input (by decide)⟩

end Blab
